import Mathlib

/-!
# mattn/grpc: library lifecycle (`src/core/surface/init.c`) and the Node
credentials wrapper (`src/node/ext/credentials.cc`)

Part I embeds `grpc_init` / `grpc_shutdown` as transitions on an explicit state
(the once flag, the counter `g_initializations`, and the log of subsystem
functions called so far). The counter is a 32-bit `int`: `++` and `--` wrap
around in two's complement.

Part II embeds the `Credentials` class of the Node extension: JavaScript values
are a small inductive type, the security backend is a parameter, and every
method is a function from the world before the call to a completion and the
world after it. Strings reach the backend as C strings, cut at the first NUL.
-/

namespace Grpc

/-! ## Part I: `src/core/surface/init.c` -/

/-- The functions that `grpc_init` and `grpc_shutdown` call on the subsystems. -/
inductive Call where
  | grpc_init_trace_bits
  | grpc_iomgr_init
  | census_init
  | grpc_iomgr_shutdown
  | census_shutdown
  deriving DecidableEq, Repr

/-- Largest value of a C `int` (32 bits). -/
def INT_MAX : Int := 2147483647

/-- Smallest value of a C `int` (32 bits). -/
def INT_MIN : Int := -2147483648

/-- The value a 32-bit two's-complement `int` holds when the mathematical
result of `++` or `--` is `x`: `x` itself inside `INT_MIN .. INT_MAX`, and
wrapped around modulo `2^32` outside (what the compiled code does on overflow,
`INT_MAX + 1` giving `INT_MIN`). -/
def wrapInt (x : Int) : Int :=
  (x + 2147483648) % 4294967296 - 2147483648

/-- The file-level statics of `init.c`: `g_init` (has `do_init` run),
`g_initializations` (a C `int`: every update goes through `wrapInt`), and the
subsystem calls made so far, oldest first. -/
structure InitState where
  g_init : Bool
  g_initializations : Int
  calls : List Call
  deriving DecidableEq, Repr

/-- The state at program start: statics are zero-initialised, nothing called. -/
def InitState.fresh : InitState :=
  { g_init := false, g_initializations := 0, calls := [] }

/-- The body of `do_init`: `g_initializations = 0` (the mutex is not modelled). -/
def do_init (s : InitState) : InitState :=
  { s with g_initializations := 0 }

/-- The effect of `gpr_once_init(&g_init, do_init)`: run `do_init` the first
time only. -/
def gpr_once_init (s : InitState) : InitState :=
  if s.g_init then s else do_init { s with g_init := true }

/-- The calls made inside `if (++g_initializations == 1)`. -/
def startBlock : List Call :=
  [Call.grpc_init_trace_bits, Call.grpc_iomgr_init, Call.census_init]

/-- The calls made inside `if (--g_initializations == 0)`. -/
def stopBlock : List Call :=
  [Call.grpc_iomgr_shutdown, Call.census_shutdown]

/-- The function `grpc_init`. -/
def grpc_init (s : InitState) : InitState :=
  let s1 := gpr_once_init s
  let n := wrapInt (s1.g_initializations + 1)
  if n = 1 then
    { s1 with g_initializations := n, calls := s1.calls ++ startBlock }
  else
    { s1 with g_initializations := n }

/-- The function `grpc_shutdown`. -/
def grpc_shutdown (s : InitState) : InitState :=
  let n := wrapInt (s.g_initializations - 1)
  if n = 0 then
    { s with g_initializations := n, calls := s.calls ++ stopBlock }
  else
    { s with g_initializations := n }

/-- One call of the public lifecycle interface. -/
inductive Op where
  | init
  | shutdown
  deriving DecidableEq, Repr

/-- Execute one lifecycle call. -/
def step (s : InitState) : Op → InitState
  | Op.init => grpc_init s
  | Op.shutdown => grpc_shutdown s

/-- Execute a sequence of lifecycle calls, first element first. -/
def run (ops : List Op) (s : InitState) : InitState :=
  ops.foldl step s

/-- The calls an operation adds to the log when executed in state `s`. -/
def newCalls (op : Op) (s : InitState) : List Call :=
  (step s op).calls.drop s.calls.length

/-- Subsystems that have both a start and a stop function. -/
inductive Subsystem where
  | iomgr
  | census
  deriving DecidableEq, Repr

/-- Which subsystem a call starts, if any. -/
def Call.starts : Call → Option Subsystem
  | Call.grpc_iomgr_init => some Subsystem.iomgr
  | Call.census_init => some Subsystem.census
  | _ => none

/-- Which subsystem a call stops, if any. -/
def Call.stops : Call → Option Subsystem
  | Call.grpc_iomgr_shutdown => some Subsystem.iomgr
  | Call.census_shutdown => some Subsystem.census
  | _ => none

/-- Subsystems started by `grpc_init` in state `s`, in call order. -/
def startedBy (s : InitState) : List Subsystem :=
  (newCalls Op.init s).filterMap Call.starts

/-- Subsystems stopped by `grpc_shutdown` in state `s`, in call order. -/
def stoppedBy (s : InitState) : List Subsystem :=
  (newCalls Op.shutdown s).filterMap Call.stops

/-! ### Vocabulary for sequences of calls -/

/-- Number of `grpc_init` calls minus number of `grpc_shutdown` calls. -/
def balance (ops : List Op) : Int :=
  (ops.count Op.init : Int) - (ops.count Op.shutdown : Int)

/-- As many acquires as releases. -/
def Balanced (ops : List Op) : Prop :=
  ops.count Op.init = ops.count Op.shutdown

/-- No initial segment has more releases than acquires. -/
def NoExcessRelease (ops : List Op) : Prop :=
  ∀ k, k ≤ ops.length → (ops.take k).count Op.shutdown ≤ (ops.take k).count Op.init

/-- No initial segment has more than `bound` acquires not yet released. -/
def OutstandingAtMost (bound : Nat) (ops : List Op) : Prop :=
  ∀ k, k ≤ ops.length →
    (ops.take k).count Op.init ≤ (ops.take k).count Op.shutdown + bound

/-- Number of non-empty initial segments that are balanced: how often the
sequence comes back to "as many releases as acquires". -/
def zeroReturns (ops : List Op) : Nat :=
  ((List.range ops.length).filter
    (fun k => decide ((ops.take (k + 1)).count Op.init
                        = (ops.take (k + 1)).count Op.shutdown))).length

/-- The log made of `k` complete start/stop rounds. -/
def rounds : Nat → List Call
  | 0 => []
  | k + 1 => rounds k ++ (startBlock ++ stopBlock)

instance (ops : List Op) : Decidable (Balanced ops) := by
  unfold Balanced; infer_instance

instance (ops : List Op) : Decidable (NoExcessRelease ops) := by
  unfold NoExcessRelease; infer_instance

instance (bound : Nat) (ops : List Op) : Decidable (OutstandingAtMost bound ops) := by
  unfold OutstandingAtMost; infer_instance

/-! ## Part II: `src/node/ext/credentials.cc` -/

/-- A C pointer, as an address; `NULL` is address 0. Used for
`grpc_credentials *`, `char *` and `void *`. -/
abbrev Ptr := Nat

/-- The null pointer. -/
def NULL : Ptr := 0

/-- The C++ class `Credentials`: its one field, set by the constructor
`Credentials::Credentials(grpc_credentials *credentials)` and never assigned
again. -/
structure Credentials where
  wrapped_credentials : Ptr
  deriving DecidableEq, Repr

/-- JavaScript values as far as the extension tells them apart. A `buffer`
carries the address `Buffer::Data` yields for it; an `external` carries the
pointer given to `External::New`; a `credentials` value is a JavaScript object
instantiated from `Credentials::fun_tpl`, together with the C++ object that
`Wrap` attached to it. -/
inductive Value where
  | undefined
  | null
  | boolean (b : Bool)
  | number (n : Int)
  | string (s : String)
  | buffer (data : Ptr)
  | external (p : Ptr)
  | credentials (obj : Credentials)
  | object
  deriving DecidableEq, Repr

/-- JavaScript exceptions thrown by the extension (`NanThrowTypeError`). -/
inductive JsError where
  | TypeError (msg : String)
  deriving DecidableEq, Repr

/-- How a method ends: it returns a value, or an exception is pending. -/
inductive Completion where
  | returned (v : Value)
  | threw (e : JsError)
  deriving DecidableEq, Repr

/-- Has the method ended with an exception. -/
def Completion.isThrow : Completion → Bool
  | Completion.threw _ => true
  | Completion.returned _ => false

/-- Calls into the security backend (`grpc/grpc_security.h`), with their
arguments. The second argument of `grpc_ssl_credentials_create` is `none` for a
`NULL` pair pointer and `some (private_key, cert_chain)` otherwise. -/
inductive BackendCall where
  | grpc_google_default_credentials_create
  | grpc_ssl_credentials_create (pem_root_certs : Ptr)
      (pem_key_cert_pair : Option (Ptr × Ptr))
  | grpc_composite_credentials_create (creds1 creds2 : Ptr)
  | grpc_compute_engine_credentials_create
  | grpc_fake_transport_security_credentials_create
  | grpc_iam_credentials_create (authorization_token authority_selector : String)
  | grpc_credentials_release (creds : Ptr)
  deriving DecidableEq, Repr

/-- The backend is not part of these sources: it is a parameter giving, for the
calls made so far and the call made now, the pointer it returns (possibly
`NULL`). -/
abbrev Backend := List BackendCall → BackendCall → Ptr

/-- What the extension changes: the backend calls made so far, oldest first,
and the C++ `Credentials` objects created by `new Credentials(...)`. -/
structure World where
  backend_calls : List BackendCall
  allocated : List Credentials
  deriving DecidableEq, Repr

/-- Nothing called, nothing allocated. -/
def World.empty : World := { backend_calls := [], allocated := [] }

/-- Make one backend call: log it and obtain the returned pointer. -/
def callBackend (backend : Backend) (c : BackendCall) (w : World) : Ptr × World :=
  (backend w.backend_calls c, { w with backend_calls := w.backend_calls ++ [c] })

/-- The expression `args[i]`: the `i`-th argument, `undefined` beyond the end. -/
def arg (args : List Value) (i : Nat) : Value :=
  args.getD i Value.undefined

/-- The test `v->IsNull()`. -/
def Value.IsNull : Value → Bool
  | Value.null => true
  | _ => false

/-- The test `v->IsUndefined()`. -/
def Value.IsUndefined : Value → Bool
  | Value.undefined => true
  | _ => false

/-- The test `v->IsString()`. -/
def Value.IsString : Value → Bool
  | Value.string _ => true
  | _ => false

/-- The test `v->IsExternal()`. -/
def Value.IsExternal : Value → Bool
  | Value.external _ => true
  | _ => false

/-- The test `Buffer::HasInstance(v)`. -/
def Buffer.HasInstance : Value → Bool
  | Value.buffer _ => true
  | _ => false

/-- The call `Buffer::Data(v)`, used by the source on buffers only. -/
def Buffer.Data : Value → Ptr
  | Value.buffer data => data
  | _ => NULL

/-- The method `Credentials::HasInstance`. -/
def Credentials.HasInstance : Value → Bool
  | Value.credentials _ => true
  | _ => false

/-- The method `Credentials::GetWrappedCredentials`. -/
def Credentials.GetWrappedCredentials (self : Credentials) : Ptr :=
  self.wrapped_credentials

/-- The destructor `Credentials::~Credentials`. -/
def Credentials.destroy (backend : Backend) (self : Credentials) (w : World) : World :=
  (callBackend backend (BackendCall.grpc_credentials_release self.wrapped_credentials) w).2

/-- The `args.IsConstructCall()` branch of `Credentials::New`. -/
def Credentials.NewConstruct (args : List Value) (w : World) : Completion × World :=
  match arg args 0 with
  | Value.external creds_value =>
    let credentials : Credentials := { wrapped_credentials := creds_value }
    (Completion.returned (Value.credentials credentials),
      { w with allocated := w.allocated ++ [credentials] })
  | _ =>
    (Completion.threw (JsError.TypeError
      "Credentials can only be created with the provided functions"), w)

/-- The call `constructor->NewInstance(argc, argv)`: V8 invokes `New` as a
construct call. -/
def Credentials.NewInstance (argv : List Value) (w : World) : Completion × World :=
  Credentials.NewConstruct argv w

/-- The method `Credentials::New`. -/
def Credentials.New (isConstructCall : Bool) (args : List Value) (w : World) :
    Completion × World :=
  if isConstructCall then Credentials.NewConstruct args w
  else Credentials.NewInstance [arg args 0] w

/-- The method `Credentials::WrapStruct`. -/
def Credentials.WrapStruct (credentials : Ptr) (w : World) : Completion × World :=
  if credentials = NULL then (Completion.returned Value.null, w)
  else Credentials.NewInstance [Value.external credentials] w

/-- The method `Credentials::CreateDefault`. -/
def Credentials.CreateDefault (backend : Backend) (_args : List Value) (w : World) :
    Completion × World :=
  let r := callBackend backend BackendCall.grpc_google_default_credentials_create w
  Credentials.WrapStruct r.1 r.2

/-- One argument group of `CreateSsl`:
`if (Buffer::HasInstance(v)) p = Buffer::Data(v);
 else if (!(v->IsNull() || v->IsUndefined())) return NanThrowTypeError(..)`.
The result is the pointer then held (`NULL` when untouched), or `none` when the
method throws. -/
def bufferArg (v : Value) : Option Ptr :=
  if Buffer.HasInstance v then some (Buffer.Data v)
  else if !(v.IsNull || v.IsUndefined) then none
  else some NULL

/-- A value `CreateSsl` accepts in an argument position: a Buffer, `null` or
`undefined`. -/
def Value.isBufferOrAbsent (v : Value) : Bool :=
  Buffer.HasInstance v || (v.IsNull || v.IsUndefined)

/-- The method `Credentials::CreateSsl`. -/
def Credentials.CreateSsl (backend : Backend) (args : List Value) (w : World) :
    Completion × World :=
  match bufferArg (arg args 0) with
  | none =>
    (Completion.threw (JsError.TypeError
      "createSsl's first argument must be a Buffer"), w)
  | some root_certs =>
    match bufferArg (arg args 1) with
    | none =>
      (Completion.threw (JsError.TypeError
        "createSSl's second argument must be a Buffer if provided"), w)
    | some private_key =>
      match bufferArg (arg args 2) with
      | none =>
        (Completion.threw (JsError.TypeError
          "createSSl's third argument must be a Buffer if provided"), w)
      | some cert_chain =>
        let r := callBackend backend
          (BackendCall.grpc_ssl_credentials_create root_certs
            (if private_key = NULL then none else some (private_key, cert_chain))) w
        Credentials.WrapStruct r.1 r.2

/-- The method `Credentials::CreateComposite`. Matching on `Value.credentials`
is `HasInstance` followed by `ObjectWrap::Unwrap<Credentials>`. -/
def Credentials.CreateComposite (backend : Backend) (args : List Value) (w : World) :
    Completion × World :=
  match arg args 0 with
  | Value.credentials creds1 =>
    match arg args 1 with
    | Value.credentials creds2 =>
      let r := callBackend backend
        (BackendCall.grpc_composite_credentials_create
          creds1.wrapped_credentials creds2.wrapped_credentials) w
      Credentials.WrapStruct r.1 r.2
    | _ =>
      (Completion.threw (JsError.TypeError
        "createComposite's second argument must be a Credentials object"), w)
  | _ =>
    (Completion.threw (JsError.TypeError
      "createComposite's first argument must be a Credentials object"), w)

/-- The method `Credentials::CreateGce`. -/
def Credentials.CreateGce (backend : Backend) (_args : List Value) (w : World) :
    Completion × World :=
  let r := callBackend backend BackendCall.grpc_compute_engine_credentials_create w
  Credentials.WrapStruct r.1 r.2

/-- The method `Credentials::CreateFake`. -/
def Credentials.CreateFake (backend : Backend) (_args : List Value) (w : World) :
    Completion × World :=
  let r := callBackend backend
    BackendCall.grpc_fake_transport_security_credentials_create w
  Credentials.WrapStruct r.1 r.2

/-- The C string `*s` of a `NanUtf8String s` built from a JavaScript string: the
receiver of the `char *` reads it up to the first NUL, so it is the characters
before the first U+0000. -/
def NanUtf8String (s : String) : String :=
  String.mk (s.data.takeWhile (fun c => c != Char.ofNat 0))

/-- The method `Credentials::CreateIam`. -/
def Credentials.CreateIam (backend : Backend) (args : List Value) (w : World) :
    Completion × World :=
  match arg args 0 with
  | Value.string auth_token =>
    match arg args 1 with
    | Value.string auth_selector =>
      let r := callBackend backend
        (BackendCall.grpc_iam_credentials_create
          (NanUtf8String auth_token) (NanUtf8String auth_selector)) w
      Credentials.WrapStruct r.1 r.2
    | _ =>
      (Completion.threw (JsError.TypeError
        "createIam's second argument must be a string"), w)
  | _ =>
    (Completion.threw (JsError.TypeError
      "createIam's first argument must be a string"), w)

/-! ## Lemmas for Part I -/

theorem wrapInt_id (x : Int) (h1 : -2147483648 ≤ x) (h2 : x ≤ 2147483647) :
    wrapInt x = x := by
  unfold wrapInt; omega

theorem wrapInt_range (x : Int) :
    -2147483648 ≤ wrapInt x ∧ wrapInt x ≤ 2147483647 := by
  unfold wrapInt; omega

theorem wrapInt_succ (x : Int) : wrapInt (wrapInt x + 1) = wrapInt (x + 1) := by
  unfold wrapInt; omega

theorem wrapInt_pred (x : Int) : wrapInt (wrapInt x - 1) = wrapInt (x - 1) := by
  unfold wrapInt; omega

theorem step_init_true (c : Int) (cs : List Call) :
    step ⟨true, c, cs⟩ Op.init
      = ⟨true, wrapInt (c + 1), if wrapInt (c + 1) = 1 then cs ++ startBlock else cs⟩ := by
  by_cases h : wrapInt (c + 1) = 1 <;> simp [step, grpc_init, gpr_once_init, h]

theorem step_init_false (c : Int) (cs : List Call) :
    step ⟨false, c, cs⟩ Op.init = ⟨true, 1, cs ++ startBlock⟩ := by
  have h : wrapInt 1 = 1 := by decide
  simp [step, grpc_init, gpr_once_init, do_init, h]

theorem step_shutdown (g : Bool) (c : Int) (cs : List Call) :
    step ⟨g, c, cs⟩ Op.shutdown
      = ⟨g, wrapInt (c - 1), if wrapInt (c - 1) = 0 then cs ++ stopBlock else cs⟩ := by
  by_cases h : wrapInt (c - 1) = 0 <;> simp [step, grpc_shutdown, h]

theorem run_nil (s : InitState) : run [] s = s := rfl

theorem run_snoc (ops : List Op) (op : Op) (s : InitState) :
    run (ops ++ [op]) s = step (run ops s) op := by
  simp [run, List.foldl_append]

theorem run_append (a b : List Op) (s : InitState) :
    run (a ++ b) s = run b (run a s) := by
  simp [run, List.foldl_append]

theorem run_cons (op : Op) (ops : List Op) (s : InitState) :
    run (op :: ops) s = run ops (step s op) := rfl

theorem take_snoc_of_le (ops : List Op) (op : Op) (k : Nat) (hk : k ≤ ops.length) :
    (ops ++ [op]).take k = ops.take k := by
  exact List.take_append_of_le_length hk

theorem noExcess_init_segment {ops : List Op} {op : Op}
    (h : NoExcessRelease (ops ++ [op])) : NoExcessRelease ops := by
  intro k hk
  have h1 := h k (by simp; omega)
  rwa [take_snoc_of_le ops op k hk] at h1

theorem noExcess_whole {ops : List Op} (h : NoExcessRelease ops) :
    ops.count Op.shutdown ≤ ops.count Op.init := by
  have h1 := h ops.length (le_refl _)
  simpa using h1

theorem outstanding_init_segment {bound : Nat} {ops : List Op} {op : Op}
    (h : OutstandingAtMost bound (ops ++ [op])) : OutstandingAtMost bound ops := by
  intro k hk
  have h1 := h k (by simp; omega)
  rwa [take_snoc_of_le ops op k hk] at h1

theorem outstanding_whole {bound : Nat} {ops : List Op}
    (h : OutstandingAtMost bound ops) :
    ops.count Op.init ≤ ops.count Op.shutdown + bound := by
  have h1 := h ops.length (le_refl _)
  simpa using h1

theorem outstanding_mono {b1 b2 : Nat} {ops : List Op} (hle : b1 ≤ b2)
    (h : OutstandingAtMost b1 ops) : OutstandingAtMost b2 ops := by
  intro k hk
  have := h k hk
  omega

theorem count_init_snoc (l : List Op) (a : Op) :
    (l ++ [a]).count Op.init = l.count Op.init + (if a = Op.init then 1 else 0) := by
  cases a <;> simp

theorem count_shutdown_snoc (l : List Op) (a : Op) :
    (l ++ [a]).count Op.shutdown
      = l.count Op.shutdown + (if a = Op.shutdown then 1 else 0) := by
  cases a <;> simp

theorem zeroReturns_snoc (ops : List Op) (op : Op) :
    zeroReturns (ops ++ [op])
      = zeroReturns ops
        + (if (ops ++ [op]).count Op.init = (ops ++ [op]).count Op.shutdown
            then 1 else 0) := by
  unfold zeroReturns
  have hlen : (ops ++ [op]).length = ops.length + 1 := by simp
  rw [hlen, List.range_succ, List.filter_append, List.length_append]
  congr 1
  · congr 1
    apply List.filter_congr
    intro k hk
    have hk1 : k + 1 ≤ ops.length := by
      have := List.mem_range.mp hk
      omega
    rw [take_snoc_of_le ops op (k + 1) hk1]
  · have hfull : (ops ++ [op]).take (ops.length + 1) = ops ++ [op] := by
      apply List.take_of_length_le
      simp
    simp only [List.filter_cons, List.filter_nil, hfull]
    split <;> simp_all

theorem rounds_length (k : Nat) : (rounds k).length = 5 * k := by
  induction k with
  | zero => simp [rounds]
  | succ k ih => simp [rounds, ih, startBlock, stopBlock]; omega

/-- The state reached from the fresh state by a sequence in which no initial
segment has more releases than acquires or more than `2^32` outstanding
acquires. -/
theorem run_fresh_invariant (ops : List Op) (h : NoExcessRelease ops)
    (hb : OutstandingAtMost 4294967296 ops) :
    (run ops InitState.fresh).g_initializations = wrapInt (balance ops)
    ∧ ((run ops InitState.fresh).g_init = false → ops.count Op.init = 0)
    ∧ (run ops InitState.fresh).calls
        = rounds (zeroReturns ops)
          ++ (if ops.count Op.shutdown < ops.count Op.init then startBlock else []) := by
  induction ops using List.reverseRecOn with
  | nil =>
    refine ⟨by decide, ?_, ?_⟩ <;> simp [run, InitState.fresh, zeroReturns, rounds]
  | append_singleton l a ih =>
    obtain ⟨hc, hg, hl⟩ := ih (noExcess_init_segment h) (outstanding_init_segment hb)
    have hw := noExcess_whole h
    have hbw := outstanding_whole hb
    have hwl := noExcess_whole (noExcess_init_segment h)
    have hbl := outstanding_whole (outstanding_init_segment hb)
    rw [run_snoc, zeroReturns_snoc]
    generalize run l InitState.fresh = s at hc hg hl
    obtain ⟨g, c, cs⟩ := s
    simp only at hc hg hl
    simp only [balance] at hc
    cases a with
    | init =>
      simp only [count_init_snoc, count_shutdown_snoc, balance, if_true, if_false,
        reduceCtorEq, Nat.add_zero] at hw hbw ⊢
      cases g with
      | false =>
        have h0 := hg rfl
        have hs0 : l.count Op.shutdown = 0 := by omega
        rw [step_init_false]
        refine ⟨?_, by simp, ?_⟩
        · simp only [h0, hs0]; decide
        · simp [hl, h0, hs0]
      | true =>
        rw [step_init_true]
        have hkey : wrapInt (c + 1) = 1 ↔ l.count Op.init = l.count Op.shutdown := by
          rw [hc]; unfold wrapInt; omega
        refine ⟨?_, by simp, ?_⟩
        · show wrapInt (c + 1) = _
          rw [hc]; unfold wrapInt; push_cast; omega
        · show (if wrapInt (c + 1) = 1 then cs ++ startBlock else cs) = _
          by_cases hz : l.count Op.init = l.count Op.shutdown
          · rw [if_pos (hkey.mpr hz), hl]
            simp [hz]
          · rw [if_neg (fun hh => hz (hkey.mp hh)), hl]
            have hlt : l.count Op.shutdown < l.count Op.init := by omega
            have hne : ¬ (l.count Op.init + 1 = l.count Op.shutdown) := by omega
            have hlt2 : l.count Op.shutdown < l.count Op.init + 1 := by omega
            simp [hlt, hne, hlt2]
    | shutdown =>
      simp only [count_init_snoc, count_shutdown_snoc, balance, if_true, if_false,
        reduceCtorEq, Nat.add_zero] at hw hbw ⊢
      rw [step_shutdown]
      have hkey : wrapInt (c - 1) = 0 ↔ l.count Op.init = l.count Op.shutdown + 1 := by
        rw [hc]; unfold wrapInt; omega
      have hlt : l.count Op.shutdown < l.count Op.init := by omega
      refine ⟨?_, ?_, ?_⟩
      · show wrapInt (c - 1) = _
        rw [hc]; unfold wrapInt; push_cast; omega
      · intro hgf
        have := hg hgf
        omega
      · show (if wrapInt (c - 1) = 0 then cs ++ stopBlock else cs) = _
        by_cases hz : l.count Op.init = l.count Op.shutdown + 1
        · rw [if_pos (hkey.mpr hz), hl]
          simp [hlt, hz, rounds]
        · rw [if_neg (fun hh => hz (hkey.mp hh)), hl]
          have hlt2 : l.count Op.shutdown + 1 < l.count Op.init := by omega
          simp [hlt, hz, hlt2]

/-- The counter of a reachable state is a value of `int`. -/
theorem reachable_range (ops : List Op) :
    -2147483648 ≤ (run ops InitState.fresh).g_initializations
    ∧ (run ops InitState.fresh).g_initializations ≤ 2147483647 := by
  induction ops using List.reverseRecOn with
  | nil => decide
  | append_singleton l a ih =>
    rw [run_snoc]
    generalize run l InitState.fresh = s
    obtain ⟨g, c, cs⟩ := s
    cases a with
    | init =>
      cases g
      · rw [step_init_false]; constructor <;> simp
      · rw [step_init_true]; exact wrapInt_range _
    | shutdown => rw [step_shutdown]; exact wrapInt_range _

/-- A run of `grpc_init` calls during which the counter never becomes 1 only
moves the counter. -/
theorem run_replicate_init (n : Nat) (c : Int) (cs : List Call)
    (hc1 : -2147483648 ≤ c) (hc2 : c ≤ 2147483647)
    (hno : ∀ j : Nat, 1 ≤ j → j ≤ n → wrapInt (c + j) ≠ 1) :
    run (List.replicate n Op.init) ⟨true, c, cs⟩ = ⟨true, wrapInt (c + n), cs⟩ := by
  induction n with
  | zero => simp [run, wrapInt_id c hc1 hc2]
  | succ n ih =>
    have hprev := ih (fun j h1 h2 => hno j h1 (by omega))
    have hlast := hno (n + 1) (by omega) (le_refl _)
    rw [List.replicate_succ', run_snoc, hprev, step_init_true, wrapInt_succ]
    have he : c + (n : Int) + 1 = c + ((n + 1 : Nat) : Int) := by push_cast; ring
    rw [he, if_neg hlast]

/-- A run of `grpc_shutdown` calls during which the counter never becomes 0 only
moves the counter. -/
theorem run_replicate_shutdown (k : Nat) (g : Bool) (c : Int) (cs : List Call)
    (hc1 : -2147483648 ≤ c) (hc2 : c ≤ 2147483647)
    (hno : ∀ j : Nat, 1 ≤ j → j ≤ k → wrapInt (c - j) ≠ 0) :
    run (List.replicate k Op.shutdown) ⟨g, c, cs⟩ = ⟨g, wrapInt (c - k), cs⟩ := by
  induction k with
  | zero => simp [run, wrapInt_id c hc1 hc2]
  | succ k ih =>
    have hprev := ih (fun j h1 h2 => hno j h1 (by omega))
    have hlast := hno (k + 1) (by omega) (le_refl _)
    rw [List.replicate_succ', run_snoc, hprev, step_shutdown, wrapInt_pred]
    have he : c - (k : Int) - 1 = c - ((k + 1 : Nat) : Int) := by push_cast; ring
    rw [he, if_neg hlast]

/-- After `n` calls of `grpc_init` from the fresh state, `1 ≤ n ≤ 2^32`: the
start block has run once. -/
theorem run_inits_fresh (n : Nat) (hn : 1 ≤ n) (hmax : n ≤ 4294967296) :
    run (List.replicate n Op.init) InitState.fresh = ⟨true, wrapInt n, startBlock⟩ := by
  obtain ⟨m, rfl⟩ : ∃ m, n = m + 1 := ⟨n - 1, by omega⟩
  have hfirst : step InitState.fresh Op.init = ⟨true, 1, startBlock⟩ := by
    rw [InitState.fresh, step_init_false]; rfl
  have h := run_replicate_init m 1 startBlock (by decide) (by decide)
    (fun j h1 h2 => by unfold wrapInt; omega)
  rw [List.replicate_succ, run_cons, hfirst, h]
  have he : (1 : Int) + (m : Int) = ((m + 1 : Nat) : Int) := by push_cast; ring
  rw [he]

/-! ## Part I: the claims -/

/-- C1 (as the code behaves): for every sequence of `grpc_init` /
`grpc_shutdown` calls run from the fresh state in which acquires equal releases,
no initial segment has more releases than acquires, and no initial segment has
more than `2^32` acquires outstanding (the 32-bit counter has not come round to
1 a second time), the log of subsystem calls consists of exactly `k` rounds
"start block, then stop block", where `k` is the number of non-empty balanced
initial segments (the number of times the count comes back to 0), and the count
ends at 0. The log is a single start block followed by a single stop block
precisely when `k = 1`. -/
theorem balanced_run_rounds (ops : List Op) (hb : Balanced ops)
    (hp : NoExcessRelease ops) (hd : OutstandingAtMost 4294967296 ops) :
    (run ops InitState.fresh).calls = rounds (zeroReturns ops)
    ∧ (run ops InitState.fresh).g_initializations = 0
    ∧ ((run ops InitState.fresh).calls = startBlock ++ stopBlock
        ↔ zeroReturns ops = 1) := by
  obtain ⟨hc, _, hl⟩ := run_fresh_invariant ops hp hd
  have hb1 : ops.count Op.init = ops.count Op.shutdown := hb
  have hcalls : (run ops InitState.fresh).calls = rounds (zeroReturns ops) := by
    rw [hl]; simp [hb1]
  refine ⟨hcalls, ?_, ?_⟩
  · rw [hc]
    have : balance ops = 0 := by simp [balance, hb1]
    rw [this]; decide
  · rw [hcalls]
    constructor
    · intro h
      have hlen := congrArg List.length h
      rw [rounds_length] at hlen
      simp [startBlock, stopBlock] at hlen
      omega
    · intro h1
      rw [h1]
      simp [rounds]

/-- Witness of C1's theorem: one acquire, a nested acquire/release, one
release. -/
theorem balanced_run_rounds_witness :
    Balanced [Op.init, Op.init, Op.shutdown, Op.shutdown]
    ∧ NoExcessRelease [Op.init, Op.init, Op.shutdown, Op.shutdown]
    ∧ OutstandingAtMost 4294967296 [Op.init, Op.init, Op.shutdown, Op.shutdown]
    ∧ (run [Op.init, Op.init, Op.shutdown, Op.shutdown] InitState.fresh).calls
        = rounds (zeroReturns [Op.init, Op.init, Op.shutdown, Op.shutdown]) :=
  ⟨by decide, by decide, by decide,
    (balanced_run_rounds [Op.init, Op.init, Op.shutdown, Op.shutdown]
      (by decide) (by decide) (by decide)).1⟩

/-- C1 fails as stated: `init; shutdown; init; shutdown` is balanced, no initial
segment has more releases than acquires, and the start block and the stop block
are each executed twice. -/
theorem balanced_run_restarts :
    Balanced [Op.init, Op.shutdown, Op.init, Op.shutdown]
    ∧ NoExcessRelease [Op.init, Op.shutdown, Op.init, Op.shutdown]
    ∧ (run [Op.init, Op.shutdown, Op.init, Op.shutdown] InitState.fresh).calls
        = startBlock ++ stopBlock ++ startBlock ++ stopBlock
    ∧ (run [Op.init, Op.shutdown, Op.init, Op.shutdown] InitState.fresh).calls.count
        Call.grpc_iomgr_init = 2
    ∧ (run [Op.init, Op.shutdown, Op.init, Op.shutdown] InitState.fresh).calls.count
        Call.grpc_iomgr_shutdown = 2 := by
  decide

/-- C2 (as the code behaves): when `grpc_shutdown` brings the count from 1 to
0 it stops every subsystem that `grpc_init` started on the 0→1 transition, in
the same order in which they were started: the I/O manager first, then census. -/
theorem shutdown_stops_in_start_order (s0 s1 : InitState)
    (h0 : s0.g_initializations = 0) (h1 : s1.g_initializations = 1) :
    (grpc_shutdown s1).g_initializations = 0
    ∧ startedBy s0 = [Subsystem.iomgr, Subsystem.census]
    ∧ stoppedBy s1 = startedBy s0 := by
  obtain ⟨g0, c0, cs0⟩ := s0
  obtain ⟨g1, c1, cs1⟩ := s1
  simp only at h0 h1
  subst h0 h1
  have hw1 : wrapInt 1 = 1 := by decide
  have hw0 : wrapInt 0 = 0 := by decide
  have hstart : startedBy ⟨g0, 0, cs0⟩ = [Subsystem.iomgr, Subsystem.census] := by
    cases g0 <;>
      simp [startedBy, newCalls, step_init_true, step_init_false, hw1, startBlock,
        Call.starts]
  have hstop : stoppedBy ⟨g1, 1, cs1⟩ = [Subsystem.iomgr, Subsystem.census] := by
    simp [stoppedBy, newCalls, step_shutdown, hw0, stopBlock, Call.stops]
  refine ⟨?_, hstart, ?_⟩
  · show (step ⟨g1, 1, cs1⟩ Op.shutdown).g_initializations = 0
    rw [step_shutdown]
    exact hw0
  · rw [hstart, hstop]

/-- Witness of C2's theorem: the fresh state and the state after one
`grpc_init`. -/
theorem shutdown_stops_in_start_order_witness :
    InitState.fresh.g_initializations = 0
    ∧ (run [Op.init] InitState.fresh).g_initializations = 1
    ∧ stoppedBy (run [Op.init] InitState.fresh) = startedBy InitState.fresh :=
  ⟨by decide, by decide,
    (shutdown_stops_in_start_order InitState.fresh (run [Op.init] InitState.fresh)
      (by decide) (by decide)).2.2⟩

/-- C2 fails as stated: after one `grpc_init` from the fresh state, the list of
subsystems stopped by `grpc_shutdown` is not the reverse of the list started by
`grpc_init`. -/
theorem shutdown_order_not_reversed :
    startedBy InitState.fresh = [Subsystem.iomgr, Subsystem.census]
    ∧ stoppedBy (run [Op.init] InitState.fresh) = [Subsystem.iomgr, Subsystem.census]
    ∧ stoppedBy (run [Op.init] InitState.fresh) ≠ (startedBy InitState.fresh).reverse := by
  decide

/-- C3 (as the code behaves): `grpc_shutdown` has no imbalance check. Executed
when the count is 0 it ends normally, leaves the count at −1 and calls no
subsystem function. Along a sequence of calls from the fresh state the count is
non-negative after every initial segment exactly when no initial segment has
more releases than acquires and none has more than `INT_MAX` acquires
outstanding (one more overflows the `int` to `INT_MIN`). -/
theorem shutdown_imbalance_unchecked (ops : List Op) :
    (∀ (g : Bool) (cs : List Call),
        grpc_shutdown ⟨g, 0, cs⟩ = ⟨g, -1, cs⟩)
    ∧ ((∀ k, k ≤ ops.length →
          0 ≤ (run (ops.take k) InitState.fresh).g_initializations)
        ↔ (NoExcessRelease ops ∧ OutstandingAtMost 2147483647 ops)) := by
  refine ⟨fun g cs => ?_, ?_, ?_⟩
  · show step ⟨g, 0, cs⟩ Op.shutdown = _
    have hw : wrapInt (0 - 1) = -1 := by decide
    rw [step_shutdown, hw]
    simp
  · induction ops using List.reverseRecOn with
    | nil =>
      intro _
      constructor <;> intro k hk <;> simp at hk <;> subst hk <;> simp
    | append_singleton l a ih =>
      intro hall
      obtain ⟨hl, hbl⟩ : NoExcessRelease l ∧ OutstandingAtMost 2147483647 l := by
        apply ih
        intro k hk
        have := hall k (by simp; omega)
        rwa [take_snoc_of_le l a k hk] at this
      obtain ⟨hcl, hgl, _⟩ := run_fresh_invariant l hl (outstanding_mono (by decide) hbl)
      have hwl := noExcess_whole hl
      have hbwl := outstanding_whole hbl
      have hlast := hall (l ++ [a]).length (le_refl _)
      rw [List.take_length, run_snoc] at hlast
      generalize run l InitState.fresh = s at hcl hgl hlast
      obtain ⟨g, c, cs⟩ := s
      simp only [balance] at hcl hgl
      have hcount : (l ++ [a]).count Op.shutdown ≤ (l ++ [a]).count Op.init
          ∧ (l ++ [a]).count Op.init ≤ (l ++ [a]).count Op.shutdown + 2147483647 := by
        rw [count_init_snoc, count_shutdown_snoc]
        cases a with
        | init =>
          simp only [if_true, if_false, reduceCtorEq, Nat.add_zero]
          cases g with
          | false =>
            have := hgl rfl
            omega
          | true =>
            rw [step_init_true] at hlast
            simp only at hlast
            rw [hcl] at hlast
            unfold wrapInt at hlast
            omega
        | shutdown =>
          simp only [if_true, if_false, reduceCtorEq, Nat.add_zero]
          rw [step_shutdown] at hlast
          simp only at hlast
          rw [hcl] at hlast
          unfold wrapInt at hlast
          omega
      constructor
      · intro k hk
        by_cases hk1 : k ≤ l.length
        · rw [take_snoc_of_le l a k hk1]; exact hl k hk1
        · have hk2 : k = (l ++ [a]).length := by
            simp at hk ⊢; omega
          rw [hk2, List.take_length]
          exact hcount.1
      · intro k hk
        by_cases hk1 : k ≤ l.length
        · rw [take_snoc_of_le l a k hk1]; exact hbl k hk1
        · have hk2 : k = (l ++ [a]).length := by
            simp at hk ⊢; omega
          rw [hk2, List.take_length]
          exact hcount.2
  · rintro ⟨hp, hd⟩ k hk
    have hj : ∀ j, j ≤ (ops.take k).length → j ≤ k ∧ j ≤ ops.length := by
      intro j hj
      have := List.length_take_le k ops
      omega
    have hpk : NoExcessRelease (ops.take k) := by
      intro j hjl
      have := hp j (hj j hjl).2
      rwa [List.take_take, min_eq_left (hj j hjl).1]
    have hdk : OutstandingAtMost 2147483647 (ops.take k) := by
      intro j hjl
      have := hd j (hj j hjl).2
      rwa [List.take_take, min_eq_left (hj j hjl).1]
    rw [(run_fresh_invariant _ hpk (outstanding_mono (by decide) hdk)).1]
    have h1 := noExcess_whole hpk
    have h2 := outstanding_whole hdk
    simp only [balance]
    unfold wrapInt
    omega

/-- C3 fails as stated: a single `grpc_shutdown` from the fresh state ends
normally in a state whose count is −1, with no subsystem call made. -/
theorem shutdown_at_zero_goes_negative :
    grpc_shutdown InitState.fresh = ⟨false, -1, []⟩
    ∧ (run [Op.shutdown] InitState.fresh).g_initializations < 0 := by
  decide

/-- C8 (as the code behaves): in every state `s` reachable from the fresh state
with count `n`: if `0 ≤ n < INT_MAX` and `do_init` has already run (some
`grpc_init` was called before) or `n = 0`, then `grpc_init` leaves the count at
`n + 1` and appends the start block to the log if and only if `n = 0`
(otherwise it calls nothing); if `n ≥ 1` then `grpc_shutdown` leaves the count
at `n − 1` and appends the stop block to the log if and only if `n = 1`
(otherwise it calls nothing). -/
theorem init_shutdown_transitions (ops : List Op) (s : InitState)
    (hs : s = run ops InitState.fresh) :
    (0 ≤ s.g_initializations → s.g_initializations < INT_MAX →
      (s.g_init = true ∨ s.g_initializations = 0) →
      (grpc_init s).g_initializations = s.g_initializations + 1
      ∧ ((grpc_init s).calls = s.calls ++ startBlock ↔ s.g_initializations = 0)
      ∧ (s.g_initializations ≠ 0 → (grpc_init s).calls = s.calls))
    ∧ (1 ≤ s.g_initializations →
      (grpc_shutdown s).g_initializations = s.g_initializations - 1
      ∧ ((grpc_shutdown s).calls = s.calls ++ stopBlock ↔ s.g_initializations = 1)
      ∧ (s.g_initializations ≠ 1 → (grpc_shutdown s).calls = s.calls)) := by
  have hr := reachable_range ops
  rw [← hs] at hr
  obtain ⟨g, c, cs⟩ := s
  simp only [INT_MAX] at hr ⊢
  constructor
  · intro h0 hmax hg
    have hstep : grpc_init ⟨g, c, cs⟩
        = ⟨true, c + 1, if c = 0 then cs ++ startBlock else cs⟩ := by
      show step ⟨g, c, cs⟩ Op.init = _
      have hw : wrapInt (c + 1) = c + 1 := wrapInt_id _ (by omega) (by omega)
      cases g with
      | true =>
        rw [step_init_true, hw]
        by_cases hc : c = 0
        · simp [hc]
        · have : ¬ (c + 1 = 1) := by omega
          simp [hc, this]
      | false =>
        have hc : c = 0 := by simpa using hg
        subst hc
        rw [step_init_false]
        simp
    rw [hstep]
    by_cases hc : c = 0
    · simp [hc]
    · simp [hc, startBlock]
  · intro h1
    have hstep : grpc_shutdown ⟨g, c, cs⟩
        = ⟨g, c - 1, if c = 1 then cs ++ stopBlock else cs⟩ := by
      show step ⟨g, c, cs⟩ Op.shutdown = _
      have hw : wrapInt (c - 1) = c - 1 := wrapInt_id _ (by omega) (by omega)
      rw [step_shutdown, hw]
      by_cases hc : c = 1
      · simp [hc]
      · have : ¬ (c - 1 = 0) := by omega
        simp [hc, this]
    rw [hstep]
    by_cases hc : c = 1
    · simp [hc]
    · simp [hc, stopBlock]

/-- Witness of C8's theorem: the state after two `grpc_init` calls (count 2). -/
theorem init_shutdown_transitions_witness :
    (grpc_init (run [Op.init, Op.init] InitState.fresh)).g_initializations
        = (run [Op.init, Op.init] InitState.fresh).g_initializations + 1
    ∧ (grpc_shutdown (run [Op.init, Op.init] InitState.fresh)).g_initializations
        = (run [Op.init, Op.init] InitState.fresh).g_initializations - 1 :=
  ⟨((init_shutdown_transitions [Op.init, Op.init] _ rfl).1
      (by decide) (by decide) (Or.inl (by decide))).1,
   ((init_shutdown_transitions [Op.init, Op.init] _ rfl).2 (by decide)).1⟩

/-- C8 fails as stated at two reachable states with count `n ≥ 0`. After
`INT_MAX` calls of `grpc_init` the count is `INT_MAX` and one more `grpc_init`
leaves it at `INT_MIN`, not `n + 1`. After `2^31 + 2` calls of `grpc_shutdown`
from the fresh state the count has wrapped to `INT_MAX − 1` with `do_init` not
yet run; `grpc_init` then resets it, leaves it at 1 and runs the start block
although `n ≠ 0`. -/
theorem init_leaves_int_range :
    run (List.replicate 2147483647 Op.init) InitState.fresh
        = ⟨true, 2147483647, startBlock⟩
    ∧ grpc_init ⟨true, 2147483647, startBlock⟩ = ⟨true, -2147483648, startBlock⟩
    ∧ run (List.replicate 2147483650 Op.shutdown) InitState.fresh
        = ⟨false, 2147483646, []⟩
    ∧ grpc_init ⟨false, 2147483646, []⟩ = ⟨true, 1, startBlock⟩ := by
  refine ⟨?_, by decide, ?_, by decide⟩
  · rw [run_inits_fresh 2147483647 (by decide) (by decide)]
    have : wrapInt ((2147483647 : Nat) : Int) = 2147483647 := by decide
    rw [this]
  · show run (List.replicate 2147483650 Op.shutdown) ⟨false, 0, []⟩ = _
    rw [run_replicate_shutdown 2147483650 false 0 [] (by decide) (by decide)
      (fun j h1 h2 => by unfold wrapInt; omega)]
    have : wrapInt (0 - ((2147483650 : Nat) : Int)) = 2147483646 := by decide
    rw [this]

/-- C9 (as the code behaves): for every `n` with `1 ≤ n ≤ 2^32`, running `n`
calls of `grpc_init` and then `n` calls of `grpc_shutdown` from the fresh state
executes the start block exactly once, on the first `grpc_init` (the log is the
start block after the first call and still after all `n`), executes the stop
block exactly once, on the last `grpc_shutdown` (the log is unchanged after any
`k < n` of them), and ends with the start block followed by the stop block in
the log and the count at 0. -/
theorem nested_init_shutdown (n : Nat) (hn : 1 ≤ n) (hmax : n ≤ 4294967296) :
    (run [Op.init] InitState.fresh).calls = startBlock
    ∧ (run (List.replicate n Op.init) InitState.fresh).calls = startBlock
    ∧ (∀ k, k < n →
        (run (List.replicate n Op.init ++ List.replicate k Op.shutdown)
          InitState.fresh).calls = startBlock)
    ∧ (run (List.replicate n Op.init ++ List.replicate n Op.shutdown)
          InitState.fresh).calls = startBlock ++ stopBlock
    ∧ (run (List.replicate n Op.init ++ List.replicate n Op.shutdown)
          InitState.fresh).g_initializations = 0 := by
  have hi := run_inits_fresh n hn hmax
  have hrange := wrapInt_range (n : Int)
  have hk : ∀ k, k < n →
      run (List.replicate n Op.init ++ List.replicate k Op.shutdown) InitState.fresh
        = ⟨true, wrapInt (wrapInt n - k), startBlock⟩ := by
    intro k hk
    rw [run_append, hi, run_replicate_shutdown k true (wrapInt n) startBlock
      hrange.1 hrange.2 (fun j h1 h2 => by unfold wrapInt; omega)]
  have hlast : run (List.replicate n Op.init ++ List.replicate n Op.shutdown)
      InitState.fresh = ⟨true, 0, startBlock ++ stopBlock⟩ := by
    obtain ⟨m, rfl⟩ : ∃ m, n = m + 1 := ⟨n - 1, by omega⟩
    have hsplit : List.replicate (m + 1) Op.shutdown
        = List.replicate m Op.shutdown ++ [Op.shutdown] := by
      rw [List.replicate_succ']
    rw [hsplit, ← List.append_assoc, run_snoc, hk m (by omega), step_shutdown]
    have h1 : wrapInt (wrapInt (wrapInt ((m + 1 : Nat) : Int) - (m : Int)) - 1) = 0 := by
      unfold wrapInt; push_cast; omega
    rw [h1]
    simp
  refine ⟨by decide, by rw [hi], fun k hlt => by rw [hk k hlt], by rw [hlast], by rw [hlast]⟩

/-- Witness of C9's theorem: the spec's scenario, three acquires then three
releases. -/
theorem nested_init_shutdown_witness :
    1 ≤ 3 ∧ 3 ≤ 4294967296
    ∧ (run [Op.init, Op.init, Op.init, Op.shutdown, Op.shutdown, Op.shutdown]
          InitState.fresh).calls = startBlock ++ stopBlock
    ∧ (run [Op.init, Op.init, Op.init, Op.shutdown, Op.shutdown, Op.shutdown]
          InitState.fresh).g_initializations = 0 :=
  ⟨by decide, by decide, (nested_init_shutdown 3 (by decide) (by decide)).2.2.2.1,
    (nested_init_shutdown 3 (by decide) (by decide)).2.2.2.2⟩

/-- C9 fails as stated at `n = 2^32 + 1`: the 32-bit counter is back at 0 after
`2^32` calls of `grpc_init`, so the next one runs the start block a second
time, and the `2^32 + 1` calls of `grpc_shutdown` that follow run the stop
block twice. -/
theorem nested_init_shutdown_wraps :
    (run (List.replicate 4294967297 Op.init) InitState.fresh).calls
        = startBlock ++ startBlock
    ∧ (run (List.replicate 4294967297 Op.init ++ List.replicate 4294967297 Op.shutdown)
          InitState.fresh).calls = startBlock ++ startBlock ++ stopBlock ++ stopBlock := by
  have hw0 : wrapInt ((4294967296 : Nat) : Int) = 0 := by decide
  have hw1 : wrapInt (0 + 1) = 1 := by decide
  have hw2 : wrapInt (1 - 1) = 0 := by decide
  have hw3 : wrapInt (0 - ((4294967295 : Nat) : Int)) = 1 := by decide
  have hinits : run (List.replicate 4294967297 Op.init) InitState.fresh
      = ⟨true, 1, startBlock ++ startBlock⟩ := by
    show run (List.replicate (4294967296 + 1) Op.init) InitState.fresh = _
    rw [List.replicate_succ', run_snoc,
      run_inits_fresh 4294967296 (by decide) (by decide), hw0, step_init_true, hw1]
    simp
  have hshut : run (List.replicate 4294967297 Op.shutdown)
      ⟨true, 1, startBlock ++ startBlock⟩
      = ⟨true, 0, startBlock ++ startBlock ++ stopBlock ++ stopBlock⟩ := by
    show run (List.replicate (4294967295 + 1 + 1) Op.shutdown) _ = _
    rw [List.replicate_succ, run_cons, step_shutdown, hw2, if_pos rfl,
      List.replicate_succ', run_snoc,
      run_replicate_shutdown 4294967295 true 0 _ (by decide) (by decide)
        (fun j h1 h2 => by unfold wrapInt; omega),
      hw3, step_shutdown, hw2, if_pos rfl]
  refine ⟨by rw [hinits], ?_⟩
  rw [run_append, hinits, hshut]

/-! ## Lemmas for Part II -/

theorem isThrow_threw (e : JsError) : (Completion.threw e).isThrow = true := rfl

theorem isThrow_returned (v : Value) : (Completion.returned v).isThrow = false := rfl

theorem wrapStruct_null (w : World) :
    Credentials.WrapStruct NULL w = (Completion.returned Value.null, w) := by
  simp [Credentials.WrapStruct]

theorem wrapStruct_nonnull (c : Ptr) (w : World) (hc : c ≠ NULL) :
    Credentials.WrapStruct c w
      = (Completion.returned (Value.credentials ⟨c⟩),
          { w with allocated := w.allocated ++ [⟨c⟩] }) := by
  simp [Credentials.WrapStruct, hc, Credentials.NewInstance, Credentials.NewConstruct, arg]

theorem wrapStruct_isThrow (c : Ptr) (w : World) :
    (Credentials.WrapStruct c w).1.isThrow = false := by
  by_cases hc : c = NULL
  · subst hc; rw [wrapStruct_null]; rfl
  · rw [wrapStruct_nonnull c w hc]; rfl

theorem wrapStruct_backend_calls (c : Ptr) (w : World) :
    (Credentials.WrapStruct c w).2.backend_calls = w.backend_calls := by
  by_cases hc : c = NULL
  · subst hc; rw [wrapStruct_null]
  · rw [wrapStruct_nonnull c w hc]

theorem bufferArg_eq_none (v : Value) :
    bufferArg v = none ↔ v.isBufferOrAbsent = false := by
  cases v <;>
    simp [bufferArg, Value.isBufferOrAbsent, Buffer.HasInstance, Value.IsNull,
      Value.IsUndefined]

theorem bufferArg_of_accepted (v : Value) (h : v.isBufferOrAbsent = true) :
    bufferArg v = some (Buffer.Data v) := by
  cases v <;>
    simp_all [bufferArg, Value.isBufferOrAbsent, Buffer.HasInstance, Value.IsNull,
      Value.IsUndefined, Buffer.Data]

/-- What `CreateSsl` does once all three arguments are accepted. -/
theorem createSsl_of_accepted (backend : Backend) (args : List Value) (w : World)
    (h0 : (arg args 0).isBufferOrAbsent = true)
    (h1 : (arg args 1).isBufferOrAbsent = true)
    (h2 : (arg args 2).isBufferOrAbsent = true) :
    Credentials.CreateSsl backend args w
      = Credentials.WrapStruct
          (backend w.backend_calls
            (BackendCall.grpc_ssl_credentials_create (Buffer.Data (arg args 0))
              (if Buffer.Data (arg args 1) = NULL then none
                else some (Buffer.Data (arg args 1), Buffer.Data (arg args 2)))))
          { w with backend_calls := w.backend_calls ++
            [BackendCall.grpc_ssl_credentials_create (Buffer.Data (arg args 0))
              (if Buffer.Data (arg args 1) = NULL then none
                else some (Buffer.Data (arg args 1), Buffer.Data (arg args 2)))] } := by
  simp only [Credentials.CreateSsl, bufferArg_of_accepted _ h0, bufferArg_of_accepted _ h1,
    bufferArg_of_accepted _ h2, callBackend]

/-- What `CreateSsl` does when some argument is not accepted. -/
theorem createSsl_of_rejected (backend : Backend) (args : List Value) (w : World)
    (h : (arg args 0).isBufferOrAbsent = false ∨ (arg args 1).isBufferOrAbsent = false
      ∨ (arg args 2).isBufferOrAbsent = false) :
    (Credentials.CreateSsl backend args w).1.isThrow = true
    ∧ (Credentials.CreateSsl backend args w).2 = w := by
  unfold Credentials.CreateSsl
  cases h0 : bufferArg (arg args 0) with
  | none => simp [Completion.isThrow]
  | some r =>
    cases h1 : bufferArg (arg args 1) with
    | none => simp [Completion.isThrow]
    | some pk =>
      cases h2 : bufferArg (arg args 2) with
      | none => simp [Completion.isThrow]
      | some cc =>
        exfalso
        rcases h with h | h | h
        · rw [← bufferArg_eq_none] at h; simp [h] at h0
        · rw [← bufferArg_eq_none] at h; simp [h] at h1
        · rw [← bufferArg_eq_none] at h; simp [h] at h2

/-! ## Part II: the claims -/

/-- C4 (as the code behaves): `createSsl` has no check that privateKey and
certChain come together. Whenever each of the three arguments is a Buffer,
`null` or `undefined` (both of privateKey / certChain present, both absent, or
exactly one present), the call does not throw: it calls the backend's SSL
constructor exactly once and returns its wrapped result. The backend receives
no key/cert pair when the private-key pointer is `NULL` (so a lone certChain is
dropped), and otherwise the pair of the two pointers (with a `NULL` cert chain
when certChain is absent). -/
theorem createSsl_no_pairing_check (backend : Backend) (args : List Value) (w : World)
    (h0 : (arg args 0).isBufferOrAbsent = true)
    (h1 : (arg args 1).isBufferOrAbsent = true)
    (h2 : (arg args 2).isBufferOrAbsent = true) :
    (Credentials.CreateSsl backend args w).1.isThrow = false
    ∧ (Credentials.CreateSsl backend args w).2.backend_calls
        = w.backend_calls ++
          [BackendCall.grpc_ssl_credentials_create (Buffer.Data (arg args 0))
            (if Buffer.Data (arg args 1) = NULL then none
              else some (Buffer.Data (arg args 1), Buffer.Data (arg args 2)))]
    ∧ Credentials.CreateSsl backend args w
        = Credentials.WrapStruct
            (backend w.backend_calls
              (BackendCall.grpc_ssl_credentials_create (Buffer.Data (arg args 0))
                (if Buffer.Data (arg args 1) = NULL then none
                  else some (Buffer.Data (arg args 1), Buffer.Data (arg args 2)))))
            { w with backend_calls := w.backend_calls ++
              [BackendCall.grpc_ssl_credentials_create (Buffer.Data (arg args 0))
                (if Buffer.Data (arg args 1) = NULL then none
                  else some (Buffer.Data (arg args 1), Buffer.Data (arg args 2)))] } := by
  have h := createSsl_of_accepted backend args w h0 h1 h2
  refine ⟨?_, ?_, h⟩
  · rw [h]; exact wrapStruct_isThrow _ _
  · rw [h, wrapStruct_backend_calls]

/-- Witness of C4's theorem: both privateKey and certChain given as Buffers,
rootCerts absent. -/
theorem createSsl_no_pairing_check_witness :
    (arg [Value.null, Value.buffer 7, Value.buffer 9] 0).isBufferOrAbsent = true
    ∧ (arg [Value.null, Value.buffer 7, Value.buffer 9] 1).isBufferOrAbsent = true
    ∧ (arg [Value.null, Value.buffer 7, Value.buffer 9] 2).isBufferOrAbsent = true
    ∧ (Credentials.CreateSsl (fun _ _ => 42) [Value.null, Value.buffer 7, Value.buffer 9]
        World.empty).1.isThrow = false :=
  ⟨by decide, by decide, by decide,
    (createSsl_no_pairing_check (fun _ _ => 42) [Value.null, Value.buffer 7, Value.buffer 9]
      World.empty (by decide) (by decide) (by decide)).1⟩

/-- C4 fails as stated: `createSsl(undefined, pk, undefined)` does not throw; it
hands the backend the pair `(pk, NULL)` and returns the wrapped result. Likewise
`createSsl(undefined, undefined, cc)` does not throw and hands the backend no
pair at all. -/
theorem createSsl_lone_key_accepted :
    Credentials.CreateSsl (fun _ _ => 42)
        [Value.undefined, Value.buffer 7, Value.undefined] World.empty
      = (Completion.returned (Value.credentials ⟨42⟩),
          ⟨[BackendCall.grpc_ssl_credentials_create NULL (some (7, NULL))], [⟨42⟩]⟩)
    ∧ (Credentials.CreateSsl (fun _ _ => 42)
        [Value.undefined, Value.buffer 7, Value.undefined] World.empty).1.isThrow = false
    ∧ Credentials.CreateSsl (fun _ _ => 42)
        [Value.undefined, Value.undefined, Value.buffer 9] World.empty
      = (Completion.returned (Value.credentials ⟨42⟩),
          ⟨[BackendCall.grpc_ssl_credentials_create NULL none], [⟨42⟩]⟩) := by
  decide

/-- C5: for every argument list, if the first or the second argument of
`createComposite` is not a Credentials instance, the call throws a TypeError
naming that argument and leaves the world exactly as it was: no backend call
(neither the composite constructor nor a release of any credential) and no new
Credentials object. -/
theorem createComposite_rejects_non_credentials (backend : Backend) (args : List Value)
    (w : World)
    (h : Credentials.HasInstance (arg args 0) = false
      ∨ Credentials.HasInstance (arg args 1) = false) :
    ((Credentials.CreateComposite backend args w).1
        = Completion.threw (JsError.TypeError
            "createComposite's first argument must be a Credentials object")
      ∨ (Credentials.CreateComposite backend args w).1
        = Completion.threw (JsError.TypeError
            "createComposite's second argument must be a Credentials object"))
    ∧ (Credentials.CreateComposite backend args w).2 = w := by
  unfold Credentials.CreateComposite
  cases h0 : arg args 0 <;> cases h1 : arg args 1 <;>
    simp_all [Credentials.HasInstance]

/-- Witness of C5's theorem: the spec's scenario, a valid handle and an invalid
one. -/
theorem createComposite_rejects_non_credentials_witness :
    (Credentials.HasInstance (arg [Value.credentials ⟨5⟩, Value.object] 0) = false
      ∨ Credentials.HasInstance (arg [Value.credentials ⟨5⟩, Value.object] 1) = false)
    ∧ (Credentials.CreateComposite (fun _ _ => 42) [Value.credentials ⟨5⟩, Value.object]
        ⟨[], [⟨5⟩]⟩).2 = ⟨[], [⟨5⟩]⟩ :=
  ⟨Or.inr (by decide),
    (createComposite_rejects_non_credentials (fun _ _ => 42)
      [Value.credentials ⟨5⟩, Value.object] ⟨[], [⟨5⟩]⟩ (Or.inr (by decide))).2⟩

/-- C6 (as the code behaves): `createIam` checks only that both arguments are
strings. It throws exactly when the first or the second argument is not a
string; for any two strings, empty ones included, it does not throw: it calls
the backend's IAM constructor once, handing it each string as a C string (the
characters before the first NUL, so possibly empty), and returns the wrapped
result. -/
theorem createIam_checks_type_only (backend : Backend) (args : List Value) (w : World) :
    ((Credentials.CreateIam backend args w).1.isThrow = true
      ↔ ((arg args 0).IsString = false ∨ (arg args 1).IsString = false))
    ∧ (∀ (auth_token auth_selector : String) (rest : List Value),
        Credentials.CreateIam backend
            (Value.string auth_token :: Value.string auth_selector :: rest) w
          = Credentials.WrapStruct
              (backend w.backend_calls
                (BackendCall.grpc_iam_credentials_create
                  (NanUtf8String auth_token) (NanUtf8String auth_selector)))
              { w with backend_calls := w.backend_calls ++
                [BackendCall.grpc_iam_credentials_create
                  (NanUtf8String auth_token) (NanUtf8String auth_selector)] })
    ∧ NanUtf8String "" = "" := by
  refine ⟨?_, ?_, by decide⟩
  · unfold Credentials.CreateIam
    cases h0 : arg args 0 <;> cases h1 : arg args 1 <;>
      simp [Value.IsString, isThrow_threw, wrapStruct_isThrow]
  · intro t sel rest
    simp [Credentials.CreateIam, arg, callBackend]

/-- C6 fails as stated: `createIam("", "")` does not throw; it calls the backend
with the two empty strings and returns the wrapped result. The same holds when
only one of the two strings is empty. -/
theorem createIam_accepts_empty_strings :
    Credentials.CreateIam (fun _ _ => 42) [Value.string "", Value.string ""] World.empty
      = (Completion.returned (Value.credentials ⟨42⟩),
          ⟨[BackendCall.grpc_iam_credentials_create "" ""], [⟨42⟩]⟩)
    ∧ (Credentials.CreateIam (fun _ _ => 42) [Value.string "", Value.string "sel"]
        World.empty).1.isThrow = false
    ∧ (Credentials.CreateIam (fun _ _ => 42) [Value.string "tok", Value.string ""]
        World.empty).1.isThrow = false := by
  decide

/-- C7: `WrapStruct` applied to `NULL` returns JavaScript `null` and leaves the
world as it was (no Credentials object is created); applied to a non-`NULL`
credential `c` it returns a Credentials object whose `GetWrappedCredentials()`
is `c`, that object being the only one created, and calls nothing in the
backend. -/
theorem wrapStruct_roundtrip (c : Ptr) (w : World) (hc : c ≠ NULL) :
    Credentials.WrapStruct NULL w = (Completion.returned Value.null, w)
    ∧ ∃ obj : Credentials,
        (Credentials.WrapStruct c w).1 = Completion.returned (Value.credentials obj)
        ∧ obj.GetWrappedCredentials = c
        ∧ (Credentials.WrapStruct c w).2.allocated = w.allocated ++ [obj]
        ∧ (Credentials.WrapStruct c w).2.backend_calls = w.backend_calls := by
  refine ⟨wrapStruct_null w, ⟨c⟩, ?_, rfl, ?_, ?_⟩ <;> rw [wrapStruct_nonnull c w hc]

/-- Witness of C7's theorem: wrapping the credential at address 42. -/
theorem wrapStruct_roundtrip_witness :
    (42 : Ptr) ≠ NULL
    ∧ ∃ obj : Credentials,
        (Credentials.WrapStruct 42 World.empty).1
          = Completion.returned (Value.credentials obj)
        ∧ obj.GetWrappedCredentials = 42
        ∧ (Credentials.WrapStruct 42 World.empty).2.allocated
          = World.empty.allocated ++ [obj]
        ∧ (Credentials.WrapStruct 42 World.empty).2.backend_calls
          = World.empty.backend_calls :=
  ⟨by decide, (wrapStruct_roundtrip 42 World.empty (by decide)).2⟩

/-- C10: construction is all-or-nothing. For every backend, argument list and
world: `createSsl` throws exactly when one of its first three arguments is
neither a Buffer nor `null`/`undefined`, `createComposite` exactly when its
first or second argument is not a Credentials instance, `createIam` exactly
when its first or second argument is not a string; whenever one of them throws,
the world is exactly as before (no backend call, no Credentials object), and
whenever it does not throw, exactly one backend call was made, to the create
function of its kind. -/
theorem construction_all_or_nothing (backend : Backend) (args : List Value) (w : World) :
    (((Credentials.CreateSsl backend args w).1.isThrow = true
        ↔ ((arg args 0).isBufferOrAbsent = false ∨ (arg args 1).isBufferOrAbsent = false
            ∨ (arg args 2).isBufferOrAbsent = false))
      ∧ ((Credentials.CreateSsl backend args w).1.isThrow = true →
          (Credentials.CreateSsl backend args w).2 = w)
      ∧ ((Credentials.CreateSsl backend args w).1.isThrow = false →
          ∃ root_certs pair, (Credentials.CreateSsl backend args w).2.backend_calls
            = w.backend_calls
              ++ [BackendCall.grpc_ssl_credentials_create root_certs pair]))
    ∧ (((Credentials.CreateComposite backend args w).1.isThrow = true
        ↔ (Credentials.HasInstance (arg args 0) = false
            ∨ Credentials.HasInstance (arg args 1) = false))
      ∧ ((Credentials.CreateComposite backend args w).1.isThrow = true →
          (Credentials.CreateComposite backend args w).2 = w)
      ∧ ((Credentials.CreateComposite backend args w).1.isThrow = false →
          ∃ creds1 creds2, (Credentials.CreateComposite backend args w).2.backend_calls
            = w.backend_calls
              ++ [BackendCall.grpc_composite_credentials_create creds1 creds2]))
    ∧ (((Credentials.CreateIam backend args w).1.isThrow = true
        ↔ ((arg args 0).IsString = false ∨ (arg args 1).IsString = false))
      ∧ ((Credentials.CreateIam backend args w).1.isThrow = true →
          (Credentials.CreateIam backend args w).2 = w)
      ∧ ((Credentials.CreateIam backend args w).1.isThrow = false →
          ∃ token selector, (Credentials.CreateIam backend args w).2.backend_calls
            = w.backend_calls
              ++ [BackendCall.grpc_iam_credentials_create token selector])) := by
  refine ⟨?_, ?_, ?_⟩
  · by_cases hbad : (arg args 0).isBufferOrAbsent = false
        ∨ (arg args 1).isBufferOrAbsent = false ∨ (arg args 2).isBufferOrAbsent = false
    · obtain ⟨ht, hw⟩ := createSsl_of_rejected backend args w hbad
      exact ⟨⟨fun _ => hbad, fun _ => ht⟩, fun _ => hw, fun hf => by simp [ht] at hf⟩
    · have h0 : (arg args 0).isBufferOrAbsent = true := by
        cases h : (arg args 0).isBufferOrAbsent <;> simp_all
      have h1 : (arg args 1).isBufferOrAbsent = true := by
        cases h : (arg args 1).isBufferOrAbsent <;> simp_all
      have h2 : (arg args 2).isBufferOrAbsent = true := by
        cases h : (arg args 2).isBufferOrAbsent <;> simp_all
      have he := createSsl_of_accepted backend args w h0 h1 h2
      have hf : (Credentials.CreateSsl backend args w).1.isThrow = false := by
        rw [he]; exact wrapStruct_isThrow _ _
      refine ⟨⟨fun ht => by simp [hf] at ht, fun hb => absurd hb hbad⟩,
        fun ht => by simp [hf] at ht, fun _ => ?_⟩
      refine ⟨Buffer.Data (arg args 0),
        (if Buffer.Data (arg args 1) = NULL then none
          else some (Buffer.Data (arg args 1), Buffer.Data (arg args 2))), ?_⟩
      rw [he, wrapStruct_backend_calls]
  · unfold Credentials.CreateComposite
    cases h0 : arg args 0 <;> cases h1 : arg args 1 <;>
      simp [Credentials.HasInstance, isThrow_threw, wrapStruct_isThrow,
        wrapStruct_backend_calls, callBackend]
  · unfold Credentials.CreateIam
    cases h0 : arg args 0 <;> cases h1 : arg args 1 <;>
      simp [Value.IsString, isThrow_threw, wrapStruct_isThrow,
        wrapStruct_backend_calls, callBackend]

end Grpc
